import Mathlib

/-!
Verification development for the match-simulation core of the
`clash-royal` repository (a grid-based card battler).

The Python modules `game/coords.py`, `game/arena.py`, `game/rules.py`,
`game/combat.py` and `game/match.py` are shallowly embedded below.
Python strings are modelled as lists of code points (`List Nat`);
machine integers are `Int`/`Nat` (Python integers are unbounded, so no
wrap-around modelling is needed); functions that can raise return
`Except`; everything else is a pure state-passing translation.
-/

namespace ClashRoyal

/-! ## game/coords.py — Python strings as lists of code points

`str.strip`, `str.upper`, `str.isalpha`, `str.isdigit` are modelled at
ASCII code points (every string the program ever builds or compares
against is ASCII).
-/

/-- Python `str.strip` whitespace set (ASCII): space, \t, \n, \r, \v, \f. -/
def pyIsSpace (c : Nat) : Bool :=
  c = 32 || c = 9 || c = 10 || c = 13 || c = 11 || c = 12

/-- Python `str.upper` on one ASCII code point. -/
def pyToUpper (c : Nat) : Nat :=
  if 97 ≤ c ∧ c ≤ 122 then c - 32 else c

/-- Python `str.isalpha` on one ASCII code point. -/
def pyIsAlpha (c : Nat) : Bool :=
  (65 ≤ c && c ≤ 90) || (97 ≤ c && c ≤ 122)

/-- Python `str.isdigit` on one ASCII code point. -/
def pyIsDigit (c : Nat) : Bool :=
  48 ≤ c && c ≤ 57

/-- Python `str.strip()`: drop whitespace from both ends. -/
def pyStrip (s : List Nat) : List Nat :=
  ((s.dropWhile pyIsSpace).reverse.dropWhile pyIsSpace).reverse

/-- Python `str.upper()`. -/
def pyUpper (s : List Nat) : List Nat := s.map pyToUpper

/-- Python `int(s)` for a nonempty all-digit string (decimal). -/
def parseDecimal (s : List Nat) : Nat :=
  s.foldl (fun a c => 10 * a + (c - 48)) 0

/-- Python `str(n)` / f-string rendering of a natural number in decimal. -/
def renderDecimal (n : Nat) : List Nat :=
  ((Nat.digits 10 n).map (fun d => d + 48)).reverse

/-- The body of `coords.coord_to_rc` after the `pos = pos.strip().upper()`
normalization line: length check, row letter / column digits checks,
`ord`-based row and 1-based-to-0-based column conversion, and the final
negativity check. -/
def coordParseStripped (pos2 : List Nat) : Option (Int × Int) :=
  if pos2.length < 2 then none
  else
    let rowChar := pos2.headD 0
    let colPart := pos2.drop 1
    if ¬ (pyIsAlpha rowChar = true) ∨ ¬ (colPart.all pyIsDigit = true) then none
    else
      let row : Int := (rowChar : Int) - 65
      let col : Int := (parseDecimal colPart : Int) - 1
      if row < 0 ∨ col < 0 then none else some (row, col)

/-- `coords.coord_to_rc`: parse a board coordinate like `"C4"` into
`(row, col)`, returning `none` on invalid format.  Empty-input check,
then strip/uppercase normalization, then the parse proper. -/
def coord_to_rc (pos : List Nat) : Option (Int × Int) :=
  if pos = [] then none
  else coordParseStripped (pyUpper (pyStrip pos))

/-- `coords.rc_to_coord`: format `(row, col)` as a board coordinate,
`chr(ord('A') + row)` followed by the decimal rendering of `col + 1`. -/
def rc_to_coord (row col : Nat) : List Nat :=
  (65 + row) :: renderDecimal (col + 1)

/-! ## Data model — game/arena.py and game/match.py

Python stores units on the grid as mutable `dict` objects that can be
referenced from several places at once (the arena's current grid and the
`new_grid` being built inside `Match.step_units` hold the *same* dict).
To model that object identity the embedding gives every unit an id: the
grid stores `Tile.unitRef id`, and a heap (`units : List (Nat × UnitRec)`)
maps ids to the dict's contents.  Tower markers injected by
`place_towers_on_grid` are only ever replaced wholesale (never mutated
while shared along any engine path), so they are stored by value.
Tower health truth lives in the `towers` table, as in the source. -/

/-- A flank or king tower slot name (the keys of the per-owner tower dict,
in insertion order `left`, `right`, `king`). -/
inductive TName
  | left
  | right
  | king
deriving DecidableEq, Repr

/-- One tower record from `Arena.__init__`.  The constructor sets
`hp`, `row`, `col` and `active`; it never sets a `"cells"` key, which is
modelled by `cells : Option _` starting as `none` (`dict.get("cells")`
then yields `none`).  The display `emoji` field is dropped. -/
structure Tower where
  hp : Int
  row : Nat
  col : Nat
  active : Bool
  cells : Option (List (Int × Int))
deriving DecidableEq, Repr

/-- The three towers of one owner (`{"left": …, "right": …, "king": …}`). -/
structure TowerSet where
  left : Tower
  right : Tower
  king : Tower
deriving DecidableEq, Repr

/-- Read a slot of a tower set by name. -/
def tsGet (ts : TowerSet) : TName → Tower
  | .left => ts.left
  | .right => ts.right
  | .king => ts.king

/-- Write a slot of a tower set by name. -/
def tsSet (ts : TowerSet) : TName → Tower → TowerSet
  | .left, t => { ts with left := t }
  | .right, t => { ts with right := t }
  | .king, t => { ts with king := t }

/-- A unit dict as stamped by `Match.place_unit_for_player`
(`owner`, `hp`, `damage`, `range`, `speed`; display fields dropped). -/
structure UnitRec where
  owner : Int
  hp : Int
  damage : Int
  rng : Int
  speed : Int
deriving DecidableEq, Repr

/-- A unit template handed to `place_unit_for_player`: the caller's dict,
whose stat keys may be absent (`setdefault` then fills them). -/
structure UnitTemplate where
  hp : Option Int
  damage : Option Int
  rng : Option Int
  speed : Option Int
deriving DecidableEq, Repr

/-- One grid cell's occupant: a reference to a unit dict, or a tower
marker dict (`{"type": "tower", "owner": …, "name": …, "hp": …}`)
injected by `place_towers_on_grid`. -/
inductive Tile
  | unitRef (id : Nat)
  | towerMark (owner : Int) (name : TName) (hp : Int)
deriving DecidableEq, Repr

/-- Association-list lookup (first entry wins), modelling Python `d[k]` /
`d.get(k)`. -/
def alGet {κ α : Type} [DecidableEq κ] : List (κ × α) → κ → Option α
  | [], _ => none
  | p :: l, k => if p.1 = k then some p.2 else alGet l k

/-- Overwrite the value of an existing key (Python `d[k] = v` when `k`
is already present; keys in engine states are unique). -/
def alSet {κ α : Type} [DecidableEq κ] (l : List (κ × α)) (k : κ) (v : α) :
    List (κ × α) :=
  l.map (fun p => if p.1 = k then (k, v) else p)

/-- Python dict-literal insertion: replace in place if the key exists,
else append. -/
def alInsert {κ α : Type} [DecidableEq κ] (l : List (κ × α)) (k : κ) (v : α) :
    List (κ × α) :=
  if l.any (fun p => p.1 = k) then alSet l k v else l ++ [(k, v)]

/-- The battlefield grid. -/
abbrev Grid := List (List (Option Tile))

/-- The whole mutable state the engine touches: the `Arena` fields plus
the unit-object heap (`units`, `nextId`) that models Python dict identity. -/
structure GState where
  width : Nat
  height : Nat
  p1_id : Int
  p2_id : Int
  grid : Grid
  towers : List (Int × TowerSet)
  units : List (Nat × UnitRec)
  nextId : Nat
deriving DecidableEq, Repr

/-- Read a grid cell by (already bounds-checked) indices. -/
def gridGet (g : Grid) (r c : Nat) : Option Tile :=
  (g.getD r []).getD c none

/-- Write a grid cell (no-op out of range, which no engine path reaches
after its bounds checks). -/
def gridSet (g : Grid) (r c : Nat) (v : Option Tile) : Grid :=
  g.set r ((g.getD r []).set c v)

/-- `Arena.__init__(width, height, p1_id, p2_id)` (both ids present):
empty grid plus the two tower sets; no tower carries a `cells` key. -/
def Arena_init (width height : Nat) (p1 p2 : Int) : GState :=
  { width := width
    height := height
    p1_id := p1
    p2_id := p2
    grid := List.replicate height (List.replicate width none)
    towers :=
      alInsert (alInsert [] p1
        ⟨⟨1500, 1, 3, true, none⟩,
         ⟨1500, 1, width - 4, true, none⟩,
         ⟨3000, 2, width / 2, false, none⟩⟩) p2
        ⟨⟨1500, height - 3, 3, true, none⟩,
         ⟨1500, height - 3, width - 4, true, none⟩,
         ⟨3000, height - 2, width / 2, false, none⟩⟩
    units := []
    nextId := 0 }

/-- `Arena.in_bounds(row, col)`. -/
def in_bounds (s : GState) (row col : Int) : Bool :=
  0 ≤ row && row < (s.height : Int) && 0 ≤ col && col < (s.width : Int)

/-- The value `Arena.get(row, col)` returns: the cell contents in bounds,
`None` out of bounds. -/
def getTile (s : GState) (row col : Int) : Option Tile :=
  if in_bounds s row col then gridGet s.grid row.toNat col.toNat else none

/-- `Arena.get(row, col)`: always returns normally (`Except.ok`) — out of
bounds it returns `None`, it does not raise. -/
def Arena_get (s : GState) (row col : Int) : Except String (Option Tile) :=
  if ¬ (in_bounds s row col = true) then Except.ok none
  else Except.ok (gridGet s.grid row.toNat col.toNat)

/-- `Arena.set(row, col, value)`: raises `ValueError` (modelled as
`Except.error`) out of bounds, else writes the cell. -/
def Arena_set (s : GState) (row col : Int) (v : Option Tile) :
    Except String GState :=
  if ¬ (in_bounds s row col = true) then Except.error "Out of bounds"
  else Except.ok { s with grid := gridSet s.grid row.toNat col.toNat v }

/-- `Arena.place_towers_on_grid()`: inject a fresh marker dict for every
living tower into the grid. -/
def place_towers_on_grid (s : GState) : GState :=
  { s with
    grid := s.towers.foldl (fun g p =>
      [TName.left, TName.right, TName.king].foldl (fun g n =>
        let t := tsGet p.2 n
        if 0 < t.hp then gridSet g t.row t.col (some (Tile.towerMark p.1 n t.hp))
        else g) g) s.grid }

/-- `Arena.damage_tower(owner_id, tower_name, dmg)`.  Python raises
`KeyError` for an owner with no tower entry; no engine path reaches that,
and the embedding leaves the state unchanged there.  In bounds it mirrors
the source: no-op at hp ≤ 0; else subtract, and on reaching ≤ 0 floor the
hp at 0, clear the tower's grid cell, and activate the owner's king if a
flank tower died. -/
def damage_tower (s : GState) (owner : Int) (name : TName) (dmg : Int) :
    GState :=
  match alGet s.towers owner with
  | none => s
  | some ts =>
    let t := tsGet ts name
    if t.hp ≤ 0 then s
    else
      let hp' := t.hp - dmg
      if hp' ≤ 0 then
        let ts' := tsSet ts name { t with hp := 0 }
        let ts'' :=
          if name = TName.left ∨ name = TName.right then
            { ts' with king := { ts'.king with active := true } }
          else ts'
        { s with
          towers := alSet s.towers owner ts''
          grid := gridSet s.grid t.row t.col none }
      else { s with towers := alSet s.towers owner (tsSet ts name { t with hp := hp' }) }

/-- `Arena.any_king_dead()`: first owner (in table order) whose king hp
is ≤ 0. -/
def any_king_dead (s : GState) : Option Int :=
  s.towers.foldl (fun acc p =>
    match acc with
    | some o => some o
    | none => if p.2.king.hp ≤ (0 : Int) then some p.1 else none)
    (none : Option Int)

/-! ## game/rules.py -/

/-- `rules.river_cols(arena)`: `Arena` has no `river_cols` attribute, so
the `getattr` default `[width // 2 - 1, width // 2]` always applies;
returns `(min, max)`. -/
def river_cols (s : GState) : Int × Int :=
  let a : Int := (s.width : Int) / 2 - 1
  let b : Int := (s.width : Int) / 2
  (min a b, max a b)

/-- `rules.is_river_column(arena, col)`. -/
def is_river_column (s : GState) (col : Int) : Bool :=
  col = (river_cols s).1 || col = (river_cols s).2

/-- `rules.is_on_owner_side(arena, owner_id, col)`: P1 strictly left of
the river, P2 strictly right of it, unknown owner denied. -/
def is_on_owner_side (s : GState) (owner : Int) (col : Int) : Bool :=
  if owner = s.p1_id then col < (river_cols s).1
  else if owner = s.p2_id then (river_cols s).2 < col
  else false

/-- `rules.is_valid_deploy(arena, owner_id, row, col)`.  `Arena` defines
neither `is_river_column` nor `is_tower_cell`, so the two `hasattr`
guards select the `rules` fallback for the river check and skip the
tower-cell check entirely. -/
def is_valid_deploy (s : GState) (owner : Int) (row col : Int) : Bool :=
  if ¬ (in_bounds s row col = true) then false
  else if (getTile s row col).isSome then false
  else if is_river_column s col then false
  else if ¬ (is_on_owner_side s owner col = true) then false
  else true

/-- A cell occupied by a living tower according to the authoritative
tower table (the property quantified over in the deploy-legality claim). -/
def livingTowerCell (s : GState) (row col : Int) : Bool :=
  s.towers.any (fun p =>
    [TName.left, TName.right, TName.king].any (fun n =>
      let t := tsGet p.2 n
      0 < t.hp && (t.row : Int) = row && (t.col : Int) = col))

/-! ## game/match.py — Match methods

`Match` methods touch only the arena (and, through the heap model, the
unit dicts), so they are functions on `GState`. -/

/-- `Match.place_unit_for_player(owner_id, row, col, unit)`.  `Arena` has
no `is_river_column`, `is_tower_cell`, `river_left_col` or
`river_right_col` attributes, so the two `hasattr`-guarded checks are
skipped and the river edges fall back to `width // 2 - 1` and
`width // 2`.  On success the template is stamped with the owner and the
`setdefault` stat fallbacks and written to the grid. -/
def place_unit_for_player (s : GState) (owner : Int) (row col : Int)
    (u : UnitTemplate) : Bool × GState :=
  if ¬ (in_bounds s row col = true) then (false, s)
  else if (getTile s row col).isSome then (false, s)
  else
    let left_river : Int := (s.width : Int) / 2 - 1
    let right_river : Int := (s.width : Int) / 2
    if owner = s.p1_id then
      if left_river ≤ col then (false, s)
      else
        let rec' : UnitRec :=
          ⟨owner, u.hp.getD 100, u.damage.getD 50, u.rng.getD 1, u.speed.getD 1⟩
        (true, { s with
          units := s.units ++ [(s.nextId, rec')]
          nextId := s.nextId + 1
          grid := gridSet s.grid row.toNat col.toNat (some (Tile.unitRef s.nextId)) })
    else
      if col ≤ right_river then (false, s)
      else
        let rec' : UnitRec :=
          ⟨owner, u.hp.getD 100, u.damage.getD 50, u.rng.getD 1, u.speed.getD 1⟩
        (true, { s with
          units := s.units ++ [(s.nextId, rec')]
          nextId := s.nextId + 1
          grid := gridSet s.grid row.toNat col.toNat (some (Tile.unitRef s.nextId)) })

/-- `Match.attack_unit(attacker, r, c)`: re-read the target through
`Arena.get`, subtract the attacker's damage from its hit points, and
empty the cell when they fall to ≤ 0.  The source applies this to
whatever dict sits there; on a tower marker it would mutate the marker's
snapshot hp (the engine only ever calls it on unit tiles). -/
def match_attack_unit (s : GState) (attacker : UnitRec) (r c : Int) : GState :=
  match getTile s r c with
  | none => s
  | some (Tile.towerMark o n h) =>
    let h' := h - attacker.damage
    if h' ≤ 0 then { s with grid := gridSet s.grid r.toNat c.toNat none }
    else { s with grid := gridSet s.grid r.toNat c.toNat (some (Tile.towerMark o n h')) }
  | some (Tile.unitRef id) =>
    match alGet s.units id with
    | none => s
    | some t =>
      let t' := { t with hp := t.hp - attacker.damage }
      let s' := { s with units := alSet s.units id t' }
      if t'.hp ≤ 0 then { s' with grid := gridSet s'.grid r.toNat c.toNat none }
      else s'

/-- `Match.attack_tower(attacker, tower_tile)`: if the marker names the
king, set that owner's king `active` flag true (Python indexes
`towers[owner]["king"]` directly; a missing owner would raise and is
modelled as leaving the table unchanged), then delegate to
`Arena.damage_tower` with the attacker's damage. -/
def match_attack_tower (s : GState) (attacker : UnitRec) (towerOwner : Int)
    (towerName : TName) : GState :=
  let s1 :=
    if towerName = TName.king then
      match alGet s.towers towerOwner with
      | none => s
      | some ts =>
        let ts' : TowerSet := { ts with king := { ts.king with active := true } }
        { s with towers := alSet s.towers towerOwner ts' }
    else s
  damage_tower s1 towerOwner towerName attacker.damage

/-- Row-major list of all grid positions, the iteration order of the
nested `for r … for c …` loops. -/
def posList (s : GState) : List (Nat × Nat) :=
  (List.range s.height).foldl
    (fun a r => a ++ (List.range s.width).map (fun c => (r, c))) []

/-- One iteration of the `Match.step_units` scan at position `(r, c)`.
The accumulator carries the live state (whose `grid` is the *old* grid,
mutated in place by kills and tower deaths during the scan, exactly as in
the source) and the `new_grid` being built. -/
def stepCell (acc : GState × Grid) (rc : Nat × Nat) : GState × Grid :=
  let st := acc.1
  let ng := acc.2
  let r := rc.1
  let c := rc.2
  match gridGet st.grid r c with
  | none => acc
  | some (Tile.towerMark o n h) =>
    (st, gridSet ng r c (some (Tile.towerMark o n h)))
  | some (Tile.unitRef id) =>
    match alGet st.units id with
    | none => acc
    | some u =>
      let dir : Int := if u.owner = st.p1_id then 1 else -1
      let tr : Int := (r : Int)
      let tc : Int := (c : Int) + dir
      if ¬ (in_bounds st tr tc = true) then
        (st, gridSet ng r c (some (Tile.unitRef id)))
      else
        match getTile st tr tc with
        | none =>
          if gridGet ng tr.toNat tc.toNat = none then
            (st, gridSet ng tr.toNat tc.toNat (some (Tile.unitRef id)))
          else (st, gridSet ng r c (some (Tile.unitRef id)))
        | some (Tile.towerMark towOwner towName _) =>
          let st' := match_attack_tower st u towOwner towName
          (st', if gridGet ng r c = none then gridSet ng r c (some (Tile.unitRef id)) else ng)
        | some (Tile.unitRef tid) =>
          let st' :=
            if ((alGet st.units tid).map (fun t => t.owner) ≠ some u.owner) then
              match_attack_unit st u tr tc
            else st
          (st', if gridGet ng r c = none then gridSet ng r c (some (Tile.unitRef id)) else ng)

/-- `Match.step_units()`: scan the old grid row-major, copying towers,
moving each unit one column toward the enemy side (P1 right, P2 left),
attacking on contact, then replace the arena grid with the new grid. -/
def step_units (s : GState) : GState :=
  let empty : Grid := List.replicate s.height (List.replicate s.width none)
  let acc := (posList s).foldl stepCell (s, empty)
  { acc.1 with grid := acc.2 }

/-- The enemy pre-scan in `Match.tower_attacks`: row-major positions of
every non-tower tile whose owner differs from `owner`. -/
def scanEnemies (s : GState) (owner : Int) : List (Nat × Nat) :=
  (List.range s.height).foldl (fun acc r =>
    (List.range s.width).foldl (fun acc2 c =>
      match gridGet s.grid r c with
      | some (Tile.unitRef id) =>
        match alGet s.units id with
        | some u => if u.owner = owner then acc2 else acc2 ++ [(r, c)]
        | none => acc2 ++ [(r, c)]
      | _ => acc2) acc) []

/-- The body of `Match.tower_attacks` for one tower slot: skip a dead
tower, an inactive king, or a tower whose `cells` entry is missing or
empty; otherwise scan for enemies, pick the closest (Manhattan) enemy
within range over all in-bounds tower cells (first found wins ties), and
apply the slot's damage to it, emptying the cell at hp ≤ 0. -/
def towerFire (s : GState) (owner : Int) (name : TName) : GState :=
  match alGet s.towers owner with
  | none => s
  | some ts =>
    let t := tsGet ts name
    if t.hp ≤ 0 then s
    else if name = TName.king ∧ t.active = false then s
    else
      match t.cells with
      | none => s
      | some cells =>
        if cells.isEmpty then s
        else
          let dmg : Int := if name = TName.king then 120 else 90
          let rng : Int := if name = TName.king then 7 else 6
          let enemies := scanEnemies s owner
          if enemies.isEmpty then s
          else
            let best := cells.foldl
              (fun (acc : Option (Nat × Nat) × Int) cell =>
                if ¬ (in_bounds s cell.1 cell.2 = true) then acc
                else
                  let lb := enemies.foldl
                    (fun (lacc : Option (Nat × Nat) × Int) e =>
                      let dist := |(e.1 : Int) - cell.1| + |(e.2 : Int) - cell.2|
                      if dist ≤ rng ∧ dist < lacc.2 then (some e, dist) else lacc)
                    (none, 10 ^ 9)
                  match lb.1 with
                  | none => acc
                  | some _ => if lb.2 < acc.2 then lb else acc)
              (none, 10 ^ 9)
            match best.1 with
            | none => s
            | some rc =>
              match gridGet s.grid rc.1 rc.2 with
              | none => s
              | some (Tile.towerMark _ _ _) => s
              | some (Tile.unitRef id) =>
                match alGet s.units id with
                | none => s
                | some u =>
                  let u' := { u with hp := u.hp - dmg }
                  let s' := { s with units := alSet s.units id u' }
                  if u'.hp ≤ 0 then
                    { s' with grid := gridSet s'.grid rc.1 rc.2 none }
                  else s'

/-- `Match.tower_attacks()`: iterate the tower table in insertion order
(owners in table order; slots `left`, `right`, `king`), firing each. -/
def match_tower_attacks (s : GState) : GState :=
  (s.towers.map (fun p => p.1)).foldl
    (fun acc owner =>
      towerFire (towerFire (towerFire acc owner TName.left) owner TName.right)
        owner TName.king) s

/-- `Match.step_turn()`: no-op when the match is inactive, else movement
(`step_units`) followed by tower fire (`tower_attacks`). -/
def step_turn (active : Bool) (s : GState) : GState :=
  if active then match_tower_attacks (step_units s) else s

/-- The king `active` flag of `owner`'s tower set, if that owner has one. -/
def kingActive (s : GState) (owner : Int) : Option Bool :=
  (alGet s.towers owner).map (fun ts => ts.king.active)

/-- The 16×10 match arena for players 1 and 2 with the tower markers
projected onto the grid (the state deploy validation sees once
`place_towers_on_grid` has run). -/
def arena4 : GState := place_towers_on_grid (Arena_init 16 10 1 2)

/-! ## Helper lemmas: Python string primitives -/

theorem pyIsSpace_eq_false_of_big {c : Nat} (h : 33 ≤ c) : pyIsSpace c = false := by
  simp only [pyIsSpace, Bool.or_eq_false_iff, decide_eq_false_iff_not]
  omega

theorem pyToUpper_pyIsSpace (c : Nat) : pyIsSpace (pyToUpper c) = pyIsSpace c := by
  by_cases h : 97 ≤ c ∧ c ≤ 122
  · rw [pyToUpper, if_pos h, pyIsSpace_eq_false_of_big (by omega),
      pyIsSpace_eq_false_of_big (by omega)]
  · rw [pyToUpper, if_neg h]

theorem pyToUpper_idem (c : Nat) : pyToUpper (pyToUpper c) = pyToUpper c := by
  by_cases h : 97 ≤ c ∧ c ≤ 122
  · have h1 : pyToUpper c = c - 32 := by rw [pyToUpper, if_pos h]
    rw [h1, pyToUpper, if_neg (by omega)]
  · have h1 : pyToUpper c = c := by rw [pyToUpper, if_neg h]
    rw [h1, h1]

theorem pyUpper_idem (l : List Nat) : pyUpper (pyUpper l) = pyUpper l := by
  simp only [pyUpper, List.map_map]
  exact List.map_congr_left (fun c _ => pyToUpper_idem c)

theorem dropWhile_eq_self_of_head {p : Nat → Bool} {l : List Nat}
    (h : ∀ c, l.head? = some c → p c = false) : l.dropWhile p = l := by
  cases l with
  | nil => rfl
  | cons a t =>
    exact List.dropWhile_cons_of_neg (by simp [h a rfl])

theorem head_dropWhile_false (p : Nat → Bool) (l : List Nat) (c : Nat)
    (h : (l.dropWhile p).head? = some c) : p c = false := by
  induction l with
  | nil => simp [List.dropWhile] at h
  | cons a t ih =>
    rw [List.dropWhile_cons] at h
    by_cases hp : p a
    · rw [if_pos hp] at h
      exact ih h
    · rw [if_neg hp] at h
      simp only [List.head?_cons, Option.some.injEq] at h
      rw [← h]
      exact Bool.eq_false_iff.mpr hp

theorem dropWhile_eq_self_of_all {p : Nat → Bool} {l : List Nat}
    (h : ∀ c ∈ l, p c = false) : l.dropWhile p = l := by
  refine dropWhile_eq_self_of_head (fun c hc => h c ?_)
  cases l with
  | nil => simp at hc
  | cons a t =>
    simp only [List.head?_cons, Option.some.injEq] at hc
    rw [← hc]
    exact List.mem_cons_self a t

theorem pyStrip_eq_self {l : List Nat} (h : ∀ c ∈ l, pyIsSpace c = false) :
    pyStrip l = l := by
  rw [pyStrip, dropWhile_eq_self_of_all h,
    dropWhile_eq_self_of_all (fun c hc => h c (List.mem_reverse.mp hc)),
    List.reverse_reverse]

theorem pyStrip_pyUpper (l : List Nat) : pyStrip (pyUpper l) = pyUpper (pyStrip l) := by
  have hcomp : (pyIsSpace ∘ pyToUpper) = pyIsSpace := funext pyToUpper_pyIsSpace
  simp only [pyStrip, pyUpper, List.dropWhile_map, hcomp, ← List.map_reverse]

theorem pyStrip_unfold (m : List Nat) :
    pyStrip m = ((m.dropWhile pyIsSpace).reverse.dropWhile pyIsSpace).reverse := rfl

theorem pyStrip_idem (l : List Nat) : pyStrip (pyStrip l) = pyStrip l := by
  by_cases hnil : (l.dropWhile pyIsSpace).reverse.dropWhile pyIsSpace = []
  · have h0 : pyStrip l = [] := by rw [pyStrip_unfold l, hnil]; rfl
    rw [h0]
    rfl
  · have hYhead : ∀ c,
        ((l.dropWhile pyIsSpace).reverse.dropWhile pyIsSpace).head? = some c →
        pyIsSpace c = false :=
      fun c hc => head_dropWhile_false _ _ c hc
    have hYlast : ∀ c,
        ((l.dropWhile pyIsSpace).reverse.dropWhile pyIsSpace).getLast? = some c →
        pyIsSpace c = false := by
      intro c hc
      have hsplit :
          (l.dropWhile pyIsSpace).reverse.takeWhile pyIsSpace ++
            (l.dropWhile pyIsSpace).reverse.dropWhile pyIsSpace =
            (l.dropWhile pyIsSpace).reverse :=
        List.takeWhile_append_dropWhile pyIsSpace _
      have h1 : (l.dropWhile pyIsSpace).reverse.getLast? = some c := by
        rw [← hsplit, List.getLast?_append, hc]
        rfl
      have h2 : (l.dropWhile pyIsSpace).head? = some c := by
        rw [← List.getLast?_reverse]
        exact h1
      exact head_dropWhile_false _ _ c h2
    have e1 : ((l.dropWhile pyIsSpace).reverse.dropWhile pyIsSpace).reverse.dropWhile
        pyIsSpace = ((l.dropWhile pyIsSpace).reverse.dropWhile pyIsSpace).reverse :=
      dropWhile_eq_self_of_head (fun c hc => hYlast c (by simpa using hc))
    have e2 : ((l.dropWhile pyIsSpace).reverse.dropWhile pyIsSpace).dropWhile
        pyIsSpace = (l.dropWhile pyIsSpace).reverse.dropWhile pyIsSpace :=
      dropWhile_eq_self_of_head hYhead
    rw [pyStrip_unfold (pyStrip l), pyStrip_unfold l, e1, List.reverse_reverse, e2]

theorem parseDecimal_foldl (L : List Nat) (a : Nat) :
    ((L.map (fun d => d + 48)).reverse).foldl (fun x c => 10 * x + (c - 48)) a =
      a * 10 ^ L.length + Nat.ofDigits 10 L := by
  induction L generalizing a with
  | nil => simp
  | cons d L ih =>
    simp only [List.map_cons, List.reverse_cons, List.foldl_append, List.foldl_cons,
      List.foldl_nil, ih, List.length_cons, Nat.ofDigits_cons]
    ring_nf
    omega

theorem parseDecimal_renderDecimal (n : Nat) : parseDecimal (renderDecimal n) = n := by
  have h := parseDecimal_foldl (Nat.digits 10 n) 0
  simp only [Nat.zero_mul, Nat.zero_add, Nat.ofDigits_digits] at h
  exact h

theorem renderDecimal_mem {n c : Nat} (hc : c ∈ renderDecimal n) : 48 ≤ c ∧ c ≤ 57 := by
  simp only [renderDecimal, List.mem_reverse, List.mem_map] at hc
  obtain ⟨d, hd, rfl⟩ := hc
  have := Nat.digits_lt_base (by norm_num) hd
  omega

theorem renderDecimal_ne_nil {n : Nat} (hn : n ≠ 0) : renderDecimal n ≠ [] := by
  simp only [renderDecimal, ne_eq, List.reverse_eq_nil_iff, List.map_eq_nil_iff]
  exact Nat.digits_ne_nil_iff_ne_zero.mpr hn

theorem map_eq_self_of_fix {f : Nat → Nat} {l : List Nat}
    (h : ∀ c ∈ l, f c = c) : l.map f = l := by
  induction l with
  | nil => rfl
  | cons a t ih =>
    rw [List.map_cons, h a (List.mem_cons_self a t),
      ih (fun c hc => h c (List.mem_cons_of_mem a hc))]

/-! ## Claim theorems: coordinates (C9, C10) -/

/-- C9: for every `0 ≤ row < 26` and every column within a plausible
board size (here: every natural `col`), parsing the formatted coordinate
returns the original pair: `coord_to_rc (rc_to_coord row col) = (row, col)`. -/
theorem C9_coord_roundtrip (row col : Nat) (hrow : row < 26) :
    coord_to_rc (rc_to_coord row col) = some ((row : Int), (col : Int)) := by
  have hne : rc_to_coord row col ≠ [] := by simp [rc_to_coord]
  have hnospace : ∀ c ∈ rc_to_coord row col, pyIsSpace c = false := by
    intro c hc
    rw [rc_to_coord, List.mem_cons] at hc
    rcases hc with rfl | hc
    · exact pyIsSpace_eq_false_of_big (by omega)
    · exact pyIsSpace_eq_false_of_big (by have := renderDecimal_mem hc; omega)
  have hfix : ∀ c ∈ rc_to_coord row col, pyToUpper c = c := by
    intro c hc
    rw [rc_to_coord, List.mem_cons] at hc
    rcases hc with rfl | hc
    · rw [pyToUpper, if_neg (by omega)]
    · have := renderDecimal_mem hc
      rw [pyToUpper, if_neg (by omega)]
  have hR : renderDecimal (col + 1) ≠ [] := renderDecimal_ne_nil (by omega)
  have hRlen : 0 < (renderDecimal (col + 1)).length := List.length_pos.mpr hR
  rw [coord_to_rc, if_neg hne, pyStrip_eq_self hnospace]
  rw [show pyUpper (rc_to_coord row col) = rc_to_coord row col from
    map_eq_self_of_fix hfix]
  rw [coordParseStripped, rc_to_coord]
  rw [if_neg (by simp only [List.length_cons]; omega)]
  have halpha : pyIsAlpha (((65 + row) :: renderDecimal (col + 1)).headD 0) = true := by
    simp only [List.headD_cons, pyIsAlpha, Bool.or_eq_true, Bool.and_eq_true,
      decide_eq_true_eq]
    omega
  have hdigits : (((65 + row) :: renderDecimal (col + 1)).drop 1).all pyIsDigit = true := by
    simp only [List.drop_succ_cons, List.drop_zero]
    rw [List.all_eq_true]
    intro c hc
    have := renderDecimal_mem hc
    simp only [pyIsDigit, Bool.and_eq_true, decide_eq_true_eq]
    omega
  rw [if_neg (by
    simp only [List.headD_cons] at halpha
    simp only [List.drop_succ_cons, List.drop_zero, List.all_eq_true] at hdigits
    simp only [not_or, not_not]
    refine ⟨halpha, ?_⟩
    rw [List.all_eq_true]
    exact hdigits)]
  simp only [List.headD_cons, List.drop_succ_cons, List.drop_zero,
    parseDecimal_renderDecimal]
  rw [if_neg (by push_cast; omega)]
  have h1 : ((65 + row : Nat) : Int) - 65 = (row : Int) := by push_cast; ring
  have h2 : ((col + 1 : Nat) : Int) - 1 = (col : Int) := by push_cast; ring
  rw [h1, h2]

/-- C10: `coord_to_rc` is insensitive to surrounding whitespace and
letter case: for every input, parsing the input equals parsing its
stripped, upper-cased form. -/
theorem C10_coord_parse_normalization (s : List Nat) :
    coord_to_rc s = coord_to_rc (pyUpper (pyStrip s)) := by
  by_cases h0 : s = []
  · subst h0
    rfl
  · rw [coord_to_rc, if_neg h0, coord_to_rc]
    by_cases h1 : pyUpper (pyStrip s) = []
    · rw [if_pos h1, h1]
      rfl
    · rw [if_neg h1, pyStrip_pyUpper, pyStrip_idem, pyUpper_idem]

/-- Witness for C9 at `row = 2`, `col = 3` (the spec's "C4" example). -/
theorem C9_witness :
    2 < 26 ∧ coord_to_rc (rc_to_coord 2 3) = some (((2 : Nat) : Int), ((3 : Nat) : Int)) :=
  ⟨by decide, C9_coord_roundtrip 2 3 (by decide)⟩

/-! ## Claim theorems: Arena.get / Arena.set bounds behaviour (C3) -/

/-- C3 counterexample: the claim says `Arena.get` fails with an
out-of-range error on every invalid coordinate pair, but on the standard
arena `get(-1, 0)` returns normally, with value `None`. -/
theorem C3_counterexample :
    Arena_get (Arena_init 16 10 1 2) (-1) 0 = Except.ok none ∧
      (Arena_get (Arena_init 16 10 1 2) (-1) 0).isOk = true := by
  constructor
  · rfl
  · rfl

/-- C3 amended: `Arena.set` fails with an out-of-range error for every
coordinate pair outside `[0, height) × [0, width)`, while `Arena.get`
returns normally (with `None`) there. -/
theorem C3_set_raises_get_returns_none (s : GState) (row col : Int)
    (v : Option Tile) (h : in_bounds s row col = false) :
    Arena_set s row col v = Except.error "Out of bounds" ∧
      Arena_get s row col = Except.ok none := by
  rw [Arena_set, Arena_get]
  rw [if_pos (by simp [h]), if_pos (by simp [h])]
  exact ⟨rfl, rfl⟩

/-- Witness for C3 at `(-1, 0)` on the standard arena. -/
theorem C3_witness :
    in_bounds (Arena_init 16 10 1 2) (-1) 0 = false ∧
      (Arena_set (Arena_init 16 10 1 2) (-1) 0 none = Except.error "Out of bounds" ∧
        Arena_get (Arena_init 16 10 1 2) (-1) 0 = Except.ok none) :=
  ⟨by decide, C3_set_raises_get_returns_none (Arena_init 16 10 1 2) (-1) 0 none (by decide)⟩

/-! ## Helper lemmas: association lists and tower sets -/

theorem alGet_alSet_self {κ α : Type} [DecidableEq κ] (l : List (κ × α)) (k : κ)
    (v : α) : alGet (alSet l k v) k = (alGet l k).map (fun _ => v) := by
  induction l with
  | nil => rfl
  | cons p t ih =>
    by_cases hk : p.1 = k
    · simp [alSet, alGet, hk]
    · simp only [alSet, List.map_cons, if_neg hk]
      rw [alGet, if_neg hk, alGet, if_neg hk]
      exact ih

theorem alGet_alSet_ne {κ α : Type} [DecidableEq κ] (l : List (κ × α)) (k k' : κ)
    (v : α) (h : k' ≠ k) : alGet (alSet l k v) k' = alGet l k' := by
  induction l with
  | nil => rfl
  | cons p t ih =>
    by_cases hk : p.1 = k
    · simp only [alSet, List.map_cons, if_pos hk]
      rw [alGet, if_neg (fun he => h he.symm), alGet, if_neg (fun he => h (hk ▸ he).symm)]
      exact ih
    · simp only [alSet, List.map_cons, if_neg hk]
      rw [alGet, alGet]
      by_cases hk' : p.1 = k'
      · rw [if_pos hk', if_pos hk']
      · rw [if_neg hk', if_neg hk']
        exact ih

theorem tsSet_king (ts : TowerSet) (name : TName) (t' : Tower) :
    (tsSet ts name t').king = if name = TName.king then t' else ts.king := by
  cases name <;> simp [tsSet]

/-! ## Claim theorems: king activation on a direct hit (C2) -/

/-- `Arena.damage_tower` never turns a king's `active` flag off: if it is
true before the call it is true after, for every owner, slot and damage
value. -/
theorem damage_tower_kingActive (s : GState) (o : Int) (name : TName) (dmg : Int)
    (owner : Int) (h : kingActive s owner = some true) :
    kingActive (damage_tower s o name dmg) owner = some true := by
  rw [damage_tower]
  cases hts : alGet s.towers o with
  | none => exact h
  | some ts =>
    dsimp only
    by_cases hhp : (tsGet ts name).hp ≤ 0
    · rw [if_pos hhp]
      exact h
    · rw [if_neg hhp]
      by_cases how : owner = o
      · subst how
        rw [kingActive, hts] at h
        have hact : ts.king.active = true := by simpa using h
        by_cases hkill : (tsGet ts name).hp - dmg ≤ 0
        · rw [if_pos hkill]
          rw [kingActive]
          simp only [alGet_alSet_self, hts, Option.map, Option.some.injEq]
          by_cases hflank : name = TName.left ∨ name = TName.right
          · rw [if_pos hflank]
          · rw [if_neg hflank]
            cases name with
            | left => exact absurd (Or.inl rfl) hflank
            | right => exact absurd (Or.inr rfl) hflank
            | king => simpa [tsSet] using hact
        · rw [if_neg hkill]
          rw [kingActive]
          simp only [alGet_alSet_self, hts, Option.map, Option.some.injEq, tsSet_king]
          cases name with
          | left => exact hact
          | right => exact hact
          | king => simpa using hact
      · by_cases hkill : (tsGet ts name).hp - dmg ≤ 0
        · rw [if_pos hkill, kingActive]
          rw [alGet_alSet_ne _ _ _ _ how]
          exact h
        · rw [if_neg hkill, kingActive]
          rw [alGet_alSet_ne _ _ _ _ how]
          exact h

/-- C2 counterexample: applying `Arena.damage_tower` to a king slot does
NOT set the king's `active` flag — on the fresh arena, a direct
`damage_tower(p1, "king", 100)` leaves `active = False` (hp drops to
2900).  The flag is set in `Match.attack_tower`, not in `damage_tower`. -/
theorem C2_counterexample :
    kingActive (damage_tower (Arena_init 16 10 1 2) 1 TName.king 100) 1 =
        some false ∧
      (alGet (damage_tower (Arena_init 16 10 1 2) 1 TName.king 100).towers 1).map
          (fun ts => ts.king.hp) = some 2900 := by
  constructor
  · rfl
  · rfl

/-- C2 amended: whenever the king is hit directly through
`Match.attack_tower` (the engine's path for units striking a king tile),
the king's `active` flag becomes true unconditionally — regardless of the
attacker, its damage, and the king's remaining hit points.
`Arena.damage_tower` alone never sets it. -/
theorem C2_attack_tower_activates_king (s : GState) (attacker : UnitRec)
    (owner : Int) (ts : TowerSet) (h : alGet s.towers owner = some ts) :
    kingActive (match_attack_tower s attacker owner TName.king) owner = some true := by
  rw [match_attack_tower]
  rw [if_pos rfl, h]
  apply damage_tower_kingActive
  rw [kingActive]
  simp [alGet_alSet_self, h]

/-- Witness for C2's amended claim: a fresh arena, an attacker with
damage 100, owner 1. -/
theorem C2_witness :
    alGet (Arena_init 16 10 1 2).towers 1 =
        some ⟨⟨1500, 1, 3, true, none⟩, ⟨1500, 1, 12, true, none⟩,
          ⟨3000, 2, 8, false, none⟩⟩ ∧
      kingActive
          (match_attack_tower (Arena_init 16 10 1 2) ⟨2, 100, 100, 1, 1⟩ 1 TName.king) 1 =
        some true :=
  ⟨by decide, C2_attack_tower_activates_king (Arena_init 16 10 1 2) ⟨2, 100, 100, 1, 1⟩ 1
    ⟨⟨1500, 1, 3, true, none⟩, ⟨1500, 1, 12, true, none⟩, ⟨3000, 2, 8, false, none⟩⟩
    (by decide)⟩

/-! ## Claim theorems: tower damage monotonicity (C7) -/

theorem tsGet_tsSet_self (ts : TowerSet) (name : TName) (t' : Tower) :
    tsGet (tsSet ts name t') name = t' := by
  cases name <;> rfl

theorem tsGet_king_update (ts : TowerSet) (name : TName) (hname : ¬ name = TName.king)
    (k' : Tower) : tsGet { ts with king := k' } name = tsGet ts name := by
  cases name with
  | left => rfl
  | right => rfl
  | king => exact absurd rfl hname

/-- C7: one `damage_tower` call with a non-negative amount on a tower
with non-negative hit points never increases the hit points and never
drives them below zero, and when the hit points are already zero the call
leaves the entire state (tower table and grid) unchanged.  Iterating this
gives the sequence form of the claim. -/
theorem C7_damage_tower_monotone (s : GState) (owner : Int) (name : TName)
    (dmg : Int) (ts : TowerSet) (h : alGet s.towers owner = some ts)
    (hdmg : 0 ≤ dmg) (hhp : 0 ≤ (tsGet ts name).hp) :
    ∃ ts', alGet (damage_tower s owner name dmg).towers owner = some ts' ∧
      (tsGet ts' name).hp ≤ (tsGet ts name).hp ∧
      0 ≤ (tsGet ts' name).hp ∧
      ((tsGet ts name).hp = 0 → damage_tower s owner name dmg = s) := by
  rw [damage_tower, h]
  dsimp only
  by_cases hhp0 : (tsGet ts name).hp ≤ 0
  · rw [if_pos hhp0]
    exact ⟨ts, h, le_refl _, hhp, fun _ => rfl⟩
  · rw [if_neg hhp0]
    have hne : (tsGet ts name).hp = 0 → False := fun h0 => hhp0 (le_of_eq h0)
    by_cases hkill : (tsGet ts name).hp - dmg ≤ 0
    · rw [if_pos hkill]
      by_cases hflank : name = TName.left ∨ name = TName.right
      · rw [if_pos hflank]
        refine ⟨_, by rw [alGet_alSet_self, h]; rfl, ?_, ?_, fun h0 => absurd h0 hne⟩
        · rw [tsGet_king_update _ _ (by rcases hflank with rfl | rfl <;> simp) _,
            tsGet_tsSet_self]
          exact le_of_lt (lt_of_not_le hhp0)
        · rw [tsGet_king_update _ _ (by rcases hflank with rfl | rfl <;> simp) _,
            tsGet_tsSet_self]
      · rw [if_neg hflank]
        refine ⟨_, by rw [alGet_alSet_self, h]; rfl, ?_, ?_, fun h0 => absurd h0 hne⟩
        · rw [tsGet_tsSet_self]
          exact le_of_lt (lt_of_not_le hhp0)
        · rw [tsGet_tsSet_self]
    · rw [if_neg hkill]
      refine ⟨_, by rw [alGet_alSet_self, h]; rfl, ?_, ?_, fun h0 => absurd h0 hne⟩
      · rw [tsGet_tsSet_self]
        dsimp only
        omega
      · rw [tsGet_tsSet_self]
        dsimp only
        omega

/-- Witness for C7: the fresh arena's left flank tower of player 1,
damage 400. -/
theorem C7_witness :
    (alGet (Arena_init 16 10 1 2).towers 1 =
        some ⟨⟨1500, 1, 3, true, none⟩, ⟨1500, 1, 12, true, none⟩,
          ⟨3000, 2, 8, false, none⟩⟩ ∧ (0 : Int) ≤ 400 ∧
        (0 : Int) ≤ 1500) ∧
      ∃ ts', alGet (damage_tower (Arena_init 16 10 1 2) 1 TName.left 400).towers 1 =
          some ts' ∧
        (tsGet ts' TName.left).hp ≤ 1500 ∧ 0 ≤ (tsGet ts' TName.left).hp ∧
        (((1500 : Int) = 0) → damage_tower (Arena_init 16 10 1 2) 1 TName.left 400 =
          Arena_init 16 10 1 2) :=
  ⟨⟨by decide, by decide, by decide⟩,
    C7_damage_tower_monotone (Arena_init 16 10 1 2) 1 TName.left 400
      ⟨⟨1500, 1, 3, true, none⟩, ⟨1500, 1, 12, true, none⟩, ⟨3000, 2, 8, false, none⟩⟩
      (by decide) (by decide) (by decide)⟩

/-! ## Claim theorems: rejected placements do not mutate (C6) -/

/-- C6: for either real player, attempting to place a unit on a river
column, on an occupied cell, or on a column on the opponent's side makes
`place_unit_for_player` return `False` and leave the state — in
particular the arena grid — exactly as it was. -/
theorem C6_place_unit_rejects_without_mutation (s : GState) (owner : Int)
    (row col : Int) (u : UnitTemplate) (hids : s.p1_id ≠ s.p2_id)
    (hbad : col = (s.width : Int) / 2 - 1 ∨ col = (s.width : Int) / 2 ∨
      (getTile s row col).isSome = true ∨
      (owner = s.p1_id ∧ (s.width : Int) / 2 < col) ∨
      (owner = s.p2_id ∧ col < (s.width : Int) / 2 - 1)) :
    place_unit_for_player s owner row col u = (false, s) := by
  rw [place_unit_for_player]
  by_cases hb : in_bounds s row col = true
  · rw [if_neg (by simp [hb])]
    by_cases hocc : (getTile s row col).isSome = true
    · rw [if_pos hocc]
    · rw [if_neg hocc]
      dsimp only
      by_cases hp1 : owner = s.p1_id
      · rw [if_pos hp1]
        rw [if_pos ?side]
        case side =>
          rcases hbad with rfl | rfl | hobad | ⟨_, hgt⟩ | ⟨hp2, _⟩
          · omega
          · omega
          · exact absurd hobad hocc
          · omega
          · exact absurd (hp1.symm.trans hp2) hids
      · rw [if_neg hp1]
        rw [if_pos ?side2]
        case side2 =>
          rcases hbad with rfl | rfl | hobad | ⟨hp1', _⟩ | ⟨_, hlt⟩
          · omega
          · omega
          · exact absurd hobad hocc
          · exact absurd hp1' hp1
          · omega
  · rw [if_pos (by simp [hb])]

/-- Witness for C6: player 1 placing on river column 7 of the fresh
arena. -/
theorem C6_witness :
    ((Arena_init 16 10 1 2).p1_id ≠ (Arena_init 16 10 1 2).p2_id ∧
      (7 : Int) = ((Arena_init 16 10 1 2).width : Int) / 2 - 1) ∧
      place_unit_for_player (Arena_init 16 10 1 2) 1 0 7 ⟨none, none, none, none⟩ =
        (false, Arena_init 16 10 1 2) :=
  ⟨⟨by decide, by decide⟩,
    C6_place_unit_rejects_without_mutation (Arena_init 16 10 1 2) 1 0 7
      ⟨none, none, none, none⟩ (by decide) (Or.inl (by decide))⟩

/-! ## Claim theorems: deploy legality (C4) -/

/-- Any one of the three rejection conditions — river column, occupied
cell, losing the owner-side test — forces `is_valid_deploy` to false. -/
theorem deploy_false (s : GState) (owner row col : Int)
    (h : is_river_column s col = true ∨ (getTile s row col).isSome = true ∨
      is_on_owner_side s owner col = false) :
    is_valid_deploy s owner row col = false := by
  rw [is_valid_deploy]
  by_cases hb : in_bounds s row col = true
  · rw [if_neg (by simp [hb])]
    by_cases hocc : (getTile s row col).isSome = true
    · rw [if_pos hocc]
    · rw [if_neg hocc]
      rcases h with hr | ho | hs
      · rw [if_pos hr]
      · exact absurd ho hocc
      · by_cases hriv : is_river_column s col = true
        · rw [if_pos hriv]
        · rw [if_neg hriv, if_pos (by simp [hs])]
  · rw [if_pos (by simp [hb])]

/-- C4: on the fixed 16×10 arena with its two tower sets projected onto
the grid, `is_valid_deploy` returns false for every owner and row
whenever the column is a river column (7 or 8), whenever the cell is
occupied by a living tower, and whenever the column is on the opponent's
side of the river. -/
theorem C4_deploy_rejections (owner row col : Int)
    (howner : owner = 1 ∨ owner = 2)
    (hbad : is_river_column arena4 col = true ∨
      livingTowerCell arena4 row col = true ∨
      (owner = 1 ∧ (river_cols arena4).2 < col) ∨
      (owner = 2 ∧ col < (river_cols arena4).1)) :
    is_valid_deploy arena4 owner row col = false := by
  rcases hbad with hriv | htower | ⟨rfl, hcol⟩ | ⟨rfl, hcol⟩
  · exact deploy_false _ _ _ _ (Or.inl hriv)
  · have htw : arena4.towers =
        [(1, ⟨⟨1500, 1, 3, true, none⟩, ⟨1500, 1, 12, true, none⟩,
          ⟨3000, 2, 8, false, none⟩⟩),
         (2, ⟨⟨1500, 7, 3, true, none⟩, ⟨1500, 7, 12, true, none⟩,
          ⟨3000, 8, 8, false, none⟩⟩)] := by decide
    rw [livingTowerCell, htw] at htower
    simp only [List.any_cons, List.any_nil, tsGet, Bool.or_eq_true,
      Bool.and_eq_true, decide_eq_true_eq, Bool.or_false] at htower
    rcases htower with
      (⟨⟨_, h1⟩, h2⟩ | ⟨⟨_, h1⟩, h2⟩ | ⟨⟨_, h1⟩, h2⟩) |
      (⟨⟨_, h1⟩, h2⟩ | ⟨⟨_, h1⟩, h2⟩ | ⟨⟨_, h1⟩, h2⟩) <;>
      subst h1 <;> subst h2 <;> rcases howner with rfl | rfl <;> decide
  · have hside : is_on_owner_side arena4 1 col = false := by
      rw [is_on_owner_side, if_pos (by decide)]
      have h7 : (river_cols arena4).1 = 7 := by decide
      rw [h7]
      simp only [decide_eq_false_iff_not, not_lt]
      have h8 : (river_cols arena4).2 = 8 := by decide
      rw [h8] at hcol
      omega
    exact deploy_false _ _ _ _ (Or.inr (Or.inr hside))
  · have hside : is_on_owner_side arena4 2 col = false := by
      rw [is_on_owner_side, if_neg (by decide), if_pos (by decide)]
      have h8 : (river_cols arena4).2 = 8 := by decide
      rw [h8]
      simp only [decide_eq_false_iff_not, not_lt]
      have h7 : (river_cols arena4).1 = 7 := by decide
      rw [h7] at hcol
      omega
    exact deploy_false _ _ _ _ (Or.inr (Or.inr hside))

/-- C4 counterexample: on the bare constructed arena — before
`place_towers_on_grid` projects tower markers onto the grid — deploying
onto player 1's own living left flank tower cell `(1, 3)` is judged
VALID: `Arena` defines no `is_tower_cell`, so `rules.is_valid_deploy`
skips the tower-cell check, and the grid cell itself is empty. -/
theorem C4_counterexample :
    livingTowerCell (Arena_init 16 10 1 2) 1 3 = true ∧
      is_valid_deploy (Arena_init 16 10 1 2) 1 1 3 = true := by
  refine ⟨by decide, by decide⟩

/-- Witness for C4: player 1 deploying on river column 7, row 0. -/
theorem C4_witness :
    ((1 : Int) = 1 ∨ (1 : Int) = 2) ∧ is_river_column arena4 7 = true ∧
      is_valid_deploy arena4 1 0 7 = false :=
  ⟨Or.inl rfl, by decide,
    C4_deploy_rejections 1 0 7 (Or.inl rfl) (Or.inl (by decide))⟩

/-! ## Claim theorems: tower fire on a tick (C1) and the post-tick
positive-hp invariant (C5) -/

/-- C1 (code-bug evidence): place an enemy (player 2) unit with 100 hp at
`(1, 9)` — a legal deployment, Manhattan distance exactly 6 from player
1's living left flank tower at `(1, 3)`, i.e. within flank range.  The
claim says the tick's tower-attack phase subtracts 90 from its hit
points; the code's `Match.tower_attacks` does nothing at all, because
`Arena.__init__` gives towers no `cells` entry and every slot is skipped
at the `cells` check.  The state is returned bit-for-bit unchanged and
the unit keeps 100 hp. -/
theorem C1_tick_tower_attacks_never_fire :
    (place_unit_for_player (Arena_init 16 10 1 2) 2 1 9
        ⟨some 100, some 50, none, none⟩).1 = true ∧
      (alGet (place_unit_for_player (Arena_init 16 10 1 2) 2 1 9
          ⟨some 100, some 50, none, none⟩).2.towers 1).map
          (fun ts => ts.left.hp) = some 1500 ∧
      |(1 : Int) - 1| + |(9 : Int) - 3| ≤ 6 ∧
      match_tower_attacks (place_unit_for_player (Arena_init 16 10 1 2) 2 1 9
          ⟨some 100, some 50, none, none⟩).2 =
        (place_unit_for_player (Arena_init 16 10 1 2) 2 1 9
          ⟨some 100, some 50, none, none⟩).2 ∧
      (alGet (match_tower_attacks (place_unit_for_player (Arena_init 16 10 1 2) 2 1 9
          ⟨some 100, some 50, none, none⟩).2).units 0).map (fun u => u.hp) =
        some 100 := by
  refine ⟨by decide, by decide, by decide, by decide, by decide⟩

set_option maxRecDepth 100000 in
/-- C5 (code-bug evidence): legally deploy a player-1 unit (100 hp,
damage 50) at `(0, 6)` and a player-2 unit (100 hp, damage 150) at
`(0, 9)`, then run two ticks.  On the second tick the units attack each
other: the player-1 unit's hit points drop to −50, its cell in the *old*
grid is emptied, but its dict had already been copied into the tick's new
grid, so after `step_turn` the grid still holds the dead unit — a unit
tile with hit points ≤ 0 survives the tick, contradicting the claim. -/
theorem C5_dead_unit_survives_tick :
    gridGet (step_turn true (step_turn true
        (place_unit_for_player
          (place_unit_for_player (Arena_init 16 10 1 2) 1 0 6
            ⟨some 100, some 50, none, none⟩).2
          2 0 9 ⟨some 100, some 150, none, none⟩).2)).grid 0 7 =
      some (Tile.unitRef 0) ∧
    (alGet (step_turn true (step_turn true
        (place_unit_for_player
          (place_unit_for_player (Arena_init 16 10 1 2) 1 0 6
            ⟨some 100, some 50, none, none⟩).2
          2 0 9 ⟨some 100, some 150, none, none⟩).2)).units 0).map
        (fun u => u.hp) = some (-50) := by
  refine ⟨by decide, by decide⟩

/-! ## Helper lemmas: which operations touch the tower table -/

theorem kingActive_congr {s s' : GState} (o : Int) (h : s'.towers = s.towers) :
    kingActive s' o = kingActive s o := by
  rw [kingActive, kingActive, h]

theorem towers_match_attack_unit (s : GState) (a : UnitRec) (r c : Int) :
    (match_attack_unit s a r c).towers = s.towers := by
  rw [match_attack_unit]
  repeat' first | rfl | split | dsimp only

theorem towers_towerFire (s : GState) (o : Int) (n : TName) :
    (towerFire s o n).towers = s.towers := by
  rw [towerFire]
  repeat' first | rfl | split | dsimp only

theorem towers_match_tower_attacks (s : GState) :
    (match_tower_attacks s).towers = s.towers := by
  rw [match_tower_attacks]
  generalize (s.towers.map (fun p => p.1)) = l
  induction l generalizing s with
  | nil => rfl
  | cons o t ih =>
    rw [List.foldl_cons]
    rw [ih]
    rw [towers_towerFire, towers_towerFire, towers_towerFire]

theorem towers_place_unit_for_player (s : GState) (o : Int) (r c : Int)
    (u : UnitTemplate) : (place_unit_for_player s o r c u).2.towers = s.towers := by
  rw [place_unit_for_player]
  repeat' first | rfl | split | dsimp only

theorem towers_place_towers_on_grid (s : GState) :
    (place_towers_on_grid s).towers = s.towers := rfl

theorem towers_Arena_set {s s' : GState} {r c : Int} {v : Option Tile}
    (h : Arena_set s r c v = Except.ok s') : s'.towers = s.towers := by
  rw [Arena_set] at h
  by_cases hb : in_bounds s r c = true
  · rw [if_neg (by simp [hb])] at h
    cases h
    rfl
  · rw [if_pos (by simp [hb])] at h
    cases h

/-- `Match.attack_tower` never turns a king's `active` flag off. -/
theorem match_attack_tower_kingActive (s : GState) (a : UnitRec) (towOwner : Int)
    (towName : TName) (o : Int) (h : kingActive s o = some true) :
    kingActive (match_attack_tower s a towOwner towName) o = some true := by
  rw [match_attack_tower]
  apply damage_tower_kingActive
  by_cases hk : towName = TName.king
  · rw [if_pos hk]
    cases hts : alGet s.towers towOwner with
    | none => exact h
    | some ts =>
      dsimp only
      rw [kingActive]
      by_cases ho : o = towOwner
      · subst ho
        simp [alGet_alSet_self, hts]
      · rw [alGet_alSet_ne _ _ _ _ ho]
        exact h
  · rw [if_neg hk]
    exact h

/-- `Match.attack_unit` preserves every king `active` flag. -/
theorem match_attack_unit_kingActive (s : GState) (a : UnitRec) (r c : Int)
    (o : Int) (h : kingActive s o = some true) :
    kingActive (match_attack_unit s a r c) o = some true := by
  rw [kingActive_congr o (towers_match_attack_unit s a r c)]
  exact h

set_option maxHeartbeats 1000000 in
/-- One `step_units` scan step never turns a king `active` flag off. -/
theorem stepCell_kingActive (acc : GState × Grid) (rc : Nat × Nat) (o : Int)
    (h : kingActive acc.1 o = some true) :
    kingActive (stepCell acc rc).1 o = some true := by
  rw [stepCell]
  repeat' first
    | split
    | dsimp only
    | exact h
    | exact match_attack_tower_kingActive _ _ _ _ o h
    | exact match_attack_unit_kingActive _ _ _ _ o h

/-- `Match.step_units` never turns a king `active` flag off. -/
theorem step_units_kingActive (s : GState) (o : Int)
    (h : kingActive s o = some true) :
    kingActive (step_units s) o = some true := by
  rw [step_units]
  have hfold : ∀ (l : List (Nat × Nat)) (acc : GState × Grid),
      kingActive acc.1 o = some true →
      kingActive (l.foldl stepCell acc).1 o = some true := by
    intro l
    induction l with
    | nil => exact fun acc hacc => hacc
    | cons rc t ih =>
      intro acc hacc
      rw [List.foldl_cons]
      exact ih _ (stepCell_kingActive acc rc o hacc)
  have hmain := hfold (posList s) (s, List.replicate s.height (List.replicate s.width none)) h
  rw [kingActive] at hmain ⊢
  exact hmain

/-- `Match.tower_attacks` preserves every king `active` flag. -/
theorem match_tower_attacks_kingActive (s : GState) (o : Int)
    (h : kingActive s o = some true) :
    kingActive (match_tower_attacks s) o = some true := by
  rw [kingActive_congr o (towers_match_tower_attacks s)]
  exact h

/-- `Match.step_turn` never turns a king `active` flag off. -/
theorem step_turn_kingActive (active : Bool) (s : GState) (o : Int)
    (h : kingActive s o = some true) :
    kingActive (step_turn active s) o = some true := by
  rw [step_turn]
  cases active with
  | false => exact h
  | true =>
    rw [if_pos rfl]
    exact match_tower_attacks_kingActive _ o (step_units_kingActive s o h)

/-- C8: driving a living flank (left or right) tower's hit points to zero
(or below) via `damage_tower` sets that owner's king `active` flag, and
once a king's `active` flag is true, no state-changing operation of the
engine — `damage_tower`, `Match.attack_tower`, `Match.attack_unit`,
`place_unit_for_player`, `place_towers_on_grid`, `Arena.set`,
`Match.step_units`, `Match.tower_attacks`, `Match.step_turn` — ever sets
it back to false. -/
theorem C8_king_activation_one_way :
    (∀ (s : GState) (owner : Int) (name : TName) (dmg : Int) (ts : TowerSet),
      alGet s.towers owner = some ts →
      (name = TName.left ∨ name = TName.right) →
      0 < (tsGet ts name).hp → (tsGet ts name).hp - dmg ≤ 0 →
      kingActive (damage_tower s owner name dmg) owner = some true) ∧
    (∀ (s : GState) (o : Int) (name : TName) (dmg : Int) (owner : Int),
      kingActive s owner = some true →
      kingActive (damage_tower s o name dmg) owner = some true) ∧
    (∀ (s : GState) (a : UnitRec) (towOwner : Int) (towName : TName) (owner : Int),
      kingActive s owner = some true →
      kingActive (match_attack_tower s a towOwner towName) owner = some true) ∧
    (∀ (s : GState) (a : UnitRec) (r c owner : Int),
      kingActive s owner = some true →
      kingActive (match_attack_unit s a r c) owner = some true) ∧
    (∀ (s : GState) (o r c : Int) (u : UnitTemplate) (owner : Int),
      kingActive s owner = some true →
      kingActive (place_unit_for_player s o r c u).2 owner = some true) ∧
    (∀ (s : GState) (owner : Int),
      kingActive s owner = some true →
      kingActive (place_towers_on_grid s) owner = some true) ∧
    (∀ (s : GState) (r c : Int) (v : Option Tile) (s' : GState) (owner : Int),
      Arena_set s r c v = Except.ok s' →
      kingActive s owner = some true → kingActive s' owner = some true) ∧
    (∀ (s : GState) (owner : Int),
      kingActive s owner = some true →
      kingActive (step_units s) owner = some true) ∧
    (∀ (s : GState) (owner : Int),
      kingActive s owner = some true →
      kingActive (match_tower_attacks s) owner = some true) ∧
    (∀ (b : Bool) (s : GState) (owner : Int),
      kingActive s owner = some true →
      kingActive (step_turn b s) owner = some true) := by
  refine ⟨?_, ?_, ?_, ?_, ?_, ?_, ?_, ?_, ?_, ?_⟩
  · intro s owner name dmg ts h hflank hpos hkill
    rw [damage_tower, h]
    dsimp only
    rw [if_neg (by omega), if_pos (by omega), if_pos hflank, kingActive]
    simp [alGet_alSet_self, h]
  · intro s o name dmg owner h
    exact damage_tower_kingActive s o name dmg owner h
  · intro s a towOwner towName owner h
    exact match_attack_tower_kingActive s a towOwner towName owner h
  · intro s a r c owner h
    exact match_attack_unit_kingActive s a r c owner h
  · intro s o r c u owner h
    rw [kingActive_congr owner (towers_place_unit_for_player s o r c u)]
    exact h
  · intro s owner h
    rw [kingActive_congr owner (towers_place_towers_on_grid s)]
    exact h
  · intro s r c v s' owner hset h
    rw [kingActive_congr owner (towers_Arena_set hset)]
    exact h
  · intro s owner h
    exact step_units_kingActive s owner h
  · intro s owner h
    exact match_tower_attacks_kingActive s owner h
  · intro b s owner h
    exact step_turn_kingActive b s owner h

/-- Witness for C8: kill player 1's left flank tower on the fresh arena
with one 1500-damage hit (activating the king), then check the flag
survives one instance of every operation. -/
theorem C8_witness :
    (alGet (Arena_init 16 10 1 2).towers 1 =
        some ⟨⟨1500, 1, 3, true, none⟩, ⟨1500, 1, 12, true, none⟩,
          ⟨3000, 2, 8, false, none⟩⟩ ∧
      (TName.left = TName.left ∨ TName.left = TName.right) ∧
      (0 : Int) < 1500 ∧ (1500 : Int) - 1500 ≤ 0 ∧
      kingActive (damage_tower (Arena_init 16 10 1 2) 1 TName.left 1500) 1 =
        some true) ∧
    kingActive (damage_tower
        (damage_tower (Arena_init 16 10 1 2) 1 TName.left 1500) 2 TName.right 10) 1 =
      some true ∧
    kingActive (match_attack_tower
        (damage_tower (Arena_init 16 10 1 2) 1 TName.left 1500)
        ⟨2, 100, 50, 1, 1⟩ 1 TName.king) 1 = some true ∧
    kingActive (match_attack_unit
        (damage_tower (Arena_init 16 10 1 2) 1 TName.left 1500)
        ⟨2, 100, 50, 1, 1⟩ 0 0) 1 = some true ∧
    kingActive (place_unit_for_player
        (damage_tower (Arena_init 16 10 1 2) 1 TName.left 1500)
        1 0 0 ⟨none, none, none, none⟩).2 1 = some true ∧
    kingActive (place_towers_on_grid
        (damage_tower (Arena_init 16 10 1 2) 1 TName.left 1500)) 1 = some true ∧
    kingActive { damage_tower (Arena_init 16 10 1 2) 1 TName.left 1500 with
        grid := gridSet
          (damage_tower (Arena_init 16 10 1 2) 1 TName.left 1500).grid 0 0 none } 1 =
      some true ∧
    kingActive (step_units
        (damage_tower (Arena_init 16 10 1 2) 1 TName.left 1500)) 1 = some true ∧
    kingActive (match_tower_attacks
        (damage_tower (Arena_init 16 10 1 2) 1 TName.left 1500)) 1 = some true ∧
    kingActive (step_turn true
        (damage_tower (Arena_init 16 10 1 2) 1 TName.left 1500)) 1 = some true :=
  ⟨⟨by decide, Or.inl rfl, by decide, by decide,
    C8_king_activation_one_way.1 (Arena_init 16 10 1 2) 1 TName.left 1500
      ⟨⟨1500, 1, 3, true, none⟩, ⟨1500, 1, 12, true, none⟩, ⟨3000, 2, 8, false, none⟩⟩
      (by decide) (Or.inl rfl) (by decide) (by decide)⟩,
    C8_king_activation_one_way.2.1 _ 2 TName.right 10 1 (by decide),
    C8_king_activation_one_way.2.2.1 _ ⟨2, 100, 50, 1, 1⟩ 1 TName.king 1 (by decide),
    C8_king_activation_one_way.2.2.2.1 _ ⟨2, 100, 50, 1, 1⟩ 0 0 1 (by decide),
    C8_king_activation_one_way.2.2.2.2.1 _ 1 0 0 ⟨none, none, none, none⟩ 1 (by decide),
    C8_king_activation_one_way.2.2.2.2.2.1 _ 1 (by decide),
    C8_king_activation_one_way.2.2.2.2.2.2.1
      (damage_tower (Arena_init 16 10 1 2) 1 TName.left 1500) 0 0 none _ 1
      (by rfl) (by decide),
    C8_king_activation_one_way.2.2.2.2.2.2.2.1 _ 1 (by decide),
    C8_king_activation_one_way.2.2.2.2.2.2.2.2.1 _ 1 (by decide),
    C8_king_activation_one_way.2.2.2.2.2.2.2.2.2 true _ 1 (by decide)⟩

end ClashRoyal
